import Mathlib

/-!
Shallow embedding of the mididings engine dispatcher (src/src/engine.cc):
the MIDI event model, the note-on / sustain pinning tables, the per-event
processing pipeline, the scene-switch state machine and the sanitize unit.

Machine integers of the C++ source (`int` fields of `MidiEvent`, scene and
subscene numbers) are modelled as `Int`; no arithmetic in the modelled code
can overflow 32 bits, so no wrap-around is modelled.  Fallible operations
(C++ undefined behaviour: dereferencing a null patch pointer, `map::find`
returning `end()` followed by a dereference, `vector::operator[]` out of
range) are modelled totally with `Option`, `none` marking exactly those
executions.
-/

namespace Mididings

/-- The event-type tag, mirroring the `MIDI_EVENT_*` enumerators that
`Engine::sanitize_event` (engine.cc:383-454) and `Engine::get_matching_patch`
(engine.cc:227-267) dispatch on.  `noneTy` stands for `MIDI_EVENT_NONE` and
every other enumerator reaching the `default:` branch of the sanitize
switch. -/
inductive MidiEventType where
  | noteon
  | noteoff
  | ctrl
  | pitchbend
  | aftertouch
  | program
  | sysex
  | polyAftertouch
  | syscmQframe
  | syscmSongpos
  | syscmSongsel
  | syscmTunereq
  | sysrtClock
  | sysrtStart
  | sysrtContinue
  | sysrtStop
  | sysrtSensing
  | sysrtReset
  | dummy
  | noneTy
  deriving DecidableEq

/-- Modelled from the spec: `MidiEvent` (midi_event.hh, not under src/).
A tagged record with common attributes `port` and `channel`.  The per-kind
attributes live in an anonymous union overlaying two `int` words, which the
engine reads through the aliases `note.note`/`ctrl.param` (first word,
`data1` here) and `note.velocity`/`ctrl.value` (second word, `data2` here);
engine.cc itself relies on this overlay, e.g. writing `ev.ctrl.value` from
`ev.note.velocity` in sanitize_event (engine.cc:407,413) and reading
pitchbend values through `ev.ctrl.value` (engine.cc:410).  The sysex payload
is an opaque byte buffer. -/
structure MidiEvent where
  type : MidiEventType
  port : Int
  channel : Int
  /-- union word 1: `note.note` alias `ctrl.param` -/
  data1 : Int
  /-- union word 2: `note.velocity` alias `ctrl.value` -/
  data2 : Int
  sysex : List Nat
  deriving DecidableEq

/-- A patch: the dispatcher treats it purely as "apply to an event range"
(spec 4.2); `run` maps the contents of the range to its new contents.
`pid` models the identity of the underlying `Patch` object, which the
engine stores and compares by address (`Patch *`). -/
structure Patch where
  pid : Nat
  run : List MidiEvent → List MidiEvent

/-- A subscene entry: `Scene(patch, init_patch, exit_patch)` (engine.cc:79). -/
structure Scene where
  patch : Patch
  init_patch : Option Patch
  exit_patch : Option Patch

/-- Modelled from the spec: `make_notekey` (engine.hh, not under src/):
`key(ev) = (channel, note, port)` (spec 4.4). -/
def make_notekey (ev : MidiEvent) : Int × Int × Int :=
  (ev.channel, ev.data1, ev.port)

/-- Modelled from the spec: `make_sustainkey` (engine.hh, not under src/):
`skey(ev) = (channel, port)` (spec 4.4). -/
def make_sustainkey (ev : MidiEvent) : Int × Int :=
  (ev.channel, ev.port)

/-- Association-list lookup: first binding of the key, as `find` on the
engine's `std::map` / unordered map containers. -/
def amFind {α β : Type} [DecidableEq α] : List (α × β) → α → Option β
  | [], _ => none
  | (k, v) :: t, k' => if k = k' then some v else amFind t k'

/-- Erase the (first) binding of the key, as `erase(iterator)` on the found
entry (engine.cc:241,260). -/
def amErase {α β : Type} [DecidableEq α] : List (α × β) → α → List (α × β)
  | [], _ => []
  | (k, v) :: t, k' => if k = k' then t else (k, v) :: amErase t k'

/-- `insert(make_pair(key, value))` on `std::unordered_map`: a no-op when
the key is already bound, otherwise adds the binding
(engine.cc:231,249). -/
def amInsert {α β : Type} [DecidableEq α] (m : List (α × β)) (k : α) (v : β) :
    List (α × β) :=
  match amFind m k with
  | some _ => m
  | none => (k, v) :: m

/-- `vector<ScenePtr>` subscript with a C++ `int` index: defined for
`0 ≤ i < length`, undefined behaviour (`none`) otherwise. -/
def vecAt (l : List Scene) (i : Int) : Option Scene :=
  if i < 0 then none else l.get? i.toNat

/-- The whole mutable dispatcher state of `Engine`.  `backend` is the
backend pointer reduced to what the dispatcher reads from it: `none` for a
null `_backend`, `some n` for a backend with `n` output ports.  `buffer`
is the member `_buffer`.  The tracking maps store `Patch *` values, which
may be null, hence `Option Patch`. -/
structure Engine where
  backend : Option Int
  scenes : List (Int × List Scene)
  current_patch : Option Patch
  current_scene : Int
  current_subscene : Int
  new_scene : Int
  new_subscene : Int
  noteon_patches : List ((Int × Int × Int) × Option Patch)
  sustain_patches : List ((Int × Int) × Option Patch)
  ctrl_patch : Option Patch
  pre_patch : Option Patch
  post_patch : Option Patch
  buffer : List MidiEvent

/-- Port validity test of sanitize_event (engine.cc:365-366):
`ev.port < 0 || (_backend && ev.port >= num_out_ports())`. -/
def bad_port (backend : Option Int) (ev : MidiEvent) : Bool :=
  ev.port < 0 ||
    (match backend with
     | some n => ev.port ≥ n
     | none => false)

/-- Channel validity test of sanitize_event (engine.cc:375):
`ev.channel < 0 || ev.channel > 15`. -/
def bad_channel (ev : MidiEvent) : Bool :=
  ev.channel < 0 || ev.channel > 15

/-- `Engine::sanitize_event` (engine.cc:361-455): keep/drop decision plus
in-place clamping.  Returns the keep flag together with the (possibly
mutated) event; the `_verbose` diagnostics are console output only and are
not modelled.  Note that the CTRL and AFTERTOUCH branches write
`ev.ctrl.value` from `ev.note.velocity` (engine.cc:407,413); both names
denote the union word `data2`. -/
def sanitize_event (backend : Option Int) (ev : MidiEvent) : Bool × MidiEvent :=
  if bad_port backend ev then (false, ev)
  else if bad_channel ev then (false, ev)
  else
    match ev.type with
    | .noteon | .noteoff =>
        if ev.data1 < 0 ∨ ev.data1 > 127 then (false, ev)
        else
          let ev' := { ev with data2 := max 0 (min 127 ev.data2) }
          if ev.type = .noteon ∧ ev'.data2 < 0 then (false, ev')
          else (true, ev')
    | .ctrl =>
        if ev.data1 < 0 ∨ ev.data1 > 127 then (false, ev)
        else (true, { ev with data2 := max 0 (min 127 ev.data2) })
    | .pitchbend =>
        (true, { ev with data2 := max (-8192) (min 8191 ev.data2) })
    | .aftertouch =>
        (true, { ev with data2 := max 0 (min 127 ev.data2) })
    | .program =>
        if ev.data2 < 0 ∨ ev.data2 > 127 then (false, ev) else (true, ev)
    | .sysex =>
        if ev.sysex.length < 2 ∨ ev.sysex.get? 0 ≠ some 0xf0 ∨
            ev.sysex.get? (ev.sysex.length - 1) ≠ some 0xf7
        then (false, ev) else (true, ev)
    | .polyAftertouch | .syscmQframe | .syscmSongpos | .syscmSongsel
    | .syscmTunereq | .sysrtClock | .sysrtStart | .sysrtContinue
    | .sysrtStop | .sysrtSensing | .sysrtReset =>
        (true, ev)
    | .dummy => (false, ev)
    | .noneTy => (false, ev)

/-- The `_sanitize_patch` built in the constructor (engine.cc:54-57): a
patch holding a single `units::Sanitize` unit, which applies
`sanitize_event` to each event of its range, dropping the ones it
rejects. -/
def sanitizeList (backend : Option Int) (l : List MidiEvent) : List MidiEvent :=
  l.filterMap fun e =>
    match sanitize_event backend e with
    | (true, e') => some e'
    | (false, _) => none

/-- Apply an optional patch to a range's contents; `none` (unset patch
pointer) leaves the range untouched. -/
def applyOpt (op : Option Patch) (l : List MidiEvent) : List MidiEvent :=
  match op with
  | some p => p.run l
  | none => l

/-- `p->process(buffer, r)` where `r` is the suffix range of `buffer`
starting at position `pos`: the prefix before the range is untouched, the
range's contents are replaced by the patch's output (the range is
position-based and extends to the buffer's end, spec 4.1, 9). -/
def applyPatchAt (op : Option Patch) (l : List MidiEvent) (pos : Nat) :
    List MidiEvent :=
  match op with
  | some p => l.take pos ++ p.run (l.drop pos)
  | none => l

/-- The dummy event created in process_scene_switch (engine.cc:295-296):
default-constructed, then `type = MIDI_EVENT_DUMMY`. -/
def dummyEv : MidiEvent :=
  { type := .dummy, port := 0, channel := 0, data1 := 0, data2 := 0,
    sysex := [] }

/-- `Engine::get_matching_patch` (engine.cc:227-267).  Returns the selected
patch pointer (possibly null) and the updated engine state. -/
def get_matching_patch (s : Engine) (ev : MidiEvent) :
    Option Patch × Engine :=
  if ev.type = .noteon then
    (s.current_patch,
     { s with noteon_patches :=
         amInsert s.noteon_patches (make_notekey ev) s.current_patch })
  else if ev.type = .noteoff then
    match amFind s.noteon_patches (make_notekey ev) with
    | some p =>
        (p, { s with noteon_patches :=
                amErase s.noteon_patches (make_notekey ev) })
    | none => (s.current_patch, s)
  else if ev.type = .ctrl ∧ ev.data1 = 64 ∧ ev.data2 = 127 then
    (s.current_patch,
     { s with sustain_patches :=
         amInsert s.sustain_patches (make_sustainkey ev) s.current_patch })
  else if ev.type = .ctrl ∧ ev.data1 = 64 ∧ ev.data2 = 0 then
    match amFind s.sustain_patches (make_sustainkey ev) with
    | some p =>
        (p, { s with sustain_patches :=
                amErase s.sustain_patches (make_sustainkey ev) })
    | none => (s.current_patch, s)
  else
    (s.current_patch, s)

/-- `Engine::switch_scene` (engine.cc:270-278). -/
def switch_scene (s : Engine) (scene subscene : Int) : Engine :=
  let s1 := if scene ≠ -1 then { s with new_scene := scene } else s
  if subscene ≠ -1 then { s1 with new_subscene := subscene } else s1

/-- `scene_num` of process_scene_switch (engine.cc:299). -/
def targetScene (s : Engine) : Int :=
  if s.new_scene ≠ -1 then s.new_scene else s.current_scene

/-- `subscene_num` of process_scene_switch (engine.cc:300). -/
def targetSubscene (s : Engine) : Int :=
  if s.new_subscene ≠ -1 then s.new_subscene else 0

/-- The exit-patch step of process_scene_switch (engine.cc:313-330): when
a scene is current, the currently active subscene may have an exit patch;
a dummy event is run through it, then through the post patch (if set) and
the sanitize patch, all over the dummy's range in the buffer handed in.
Returns the events this step appends; `none` marks the undefined lookups
(`_scenes.find(_current_scene)` missing, `second[_current_subscene]` out
of range). -/
def exitOutput (s : Engine) : Option (List MidiEvent) :=
  if s.current_scene ≠ -1 then
    match amFind s.scenes s.current_scene with
    | none => none
    | some psubs =>
        match vecAt psubs s.current_subscene with
        | none => none
        | some prev =>
            match prev.exit_patch with
            | some xp =>
                some (sanitizeList s.backend
                  (applyOpt s.post_patch (xp.run [dummyEv])))
            | none => some []
  else some []

/-- The init-patch step of process_scene_switch (engine.cc:333-345): a
dummy event run through the target subscene's init patch, then the post
patch (if set) and the sanitize patch. -/
def initOutput (s : Engine) (scene : Scene) : List MidiEvent :=
  match scene.init_patch with
  | some ip =>
      sanitizeList s.backend (applyOpt s.post_patch (ip.run [dummyEv]))
  | none => []

/-- `Engine::process_scene_switch` (engine.cc:281-358), over the buffer it
is handed.  The python scene-switch callback (engine.cc:290-292) is an
external collaborator that only notifies scripted code; it is modelled as
a no-op on the dispatcher state.  `none` marks the undefined executions:
the lookups of `exitOutput`, and `second[subscene_num]` with a negative
index (which passes the `size > subscene_num` check). -/
def process_scene_switch (s : Engine) (buf : List MidiEvent) :
    Option (Engine × List MidiEvent) :=
  if s.new_scene = -1 ∧ s.new_subscene = -1 then
    some (s, buf)
  else
    match amFind s.scenes (targetScene s) with
    | some subs =>
        if targetSubscene s < (subs.length : Int) then
          match vecAt subs (targetSubscene s) with
          | none => none
          | some scene =>
              match exitOutput s with
              | none => none
              | some exitOut =>
                  some ({ s with
                            current_patch := some scene.patch,
                            current_scene := targetScene s,
                            current_subscene := targetSubscene s,
                            new_scene := -1,
                            new_subscene := -1 },
                        buf ++ exitOut ++ initOutput s scene)
        else
          some ({ s with new_scene := -1, new_subscene := -1 }, buf)
    | none =>
        some ({ s with new_scene := -1, new_subscene := -1 }, buf)

/-- The shared body of the `Engine::process` template (engine.cc:198-221)
up to, and not including, the final sanitize call: patch matching, the
ctrl stage over the whole buffer, the main insertion at position `pos`,
then pre, matched and post patches over the range `[pos, end)`.  Returns
the updated state, the range position and the buffer after the post
stage.  `none` models `patch->process` through a null patch pointer. -/
def processCore (s : Engine) (buf : List MidiEvent) (ev : MidiEvent) :
    Option (Engine × Nat × List MidiEvent) :=
  match get_matching_patch s ev with
  | (none, _) => none
  | (some patch, s1) =>
      let buf1 :=
        match s.ctrl_patch with
        | some cp => cp.run (buf ++ [ev])
        | none => buf
      let pos := buf1.length
      let buf2 := buf1 ++ [ev]
      let buf3 := applyPatchAt s.pre_patch buf2 pos
      let buf4 := buf3.take pos ++ patch.run (buf3.drop pos)
      let buf5 := applyPatchAt s.post_patch buf4 pos
      some (s1, pos, buf5)

/-- The `Engine::process` instantiation used by `process_event`
(engine.cc:189), where the buffer is a local `Patch::EventBuffer` distinct
from the member `_buffer`.  The final stage (engine.cc:223) reads
`_sanitize_patch->process(_buffer, r)`: the sanitize patch is applied to
the member buffer with the position-based range of the local buffer, so
the member's suffix from `pos` is sanitized while the local buffer — the
one whose contents process_event returns — is left unsanitized. -/
def processLocal (s : Engine) (buf : List MidiEvent) (ev : MidiEvent) :
    Option (Engine × List MidiEvent) :=
  match processCore s buf ev with
  | none => none
  | some (s1, pos, buf5) =>
      some ({ s1 with buffer :=
                s1.buffer.take pos ++
                  sanitizeList s.backend (s1.buffer.drop pos) },
            buf5)

/-- The `Engine::process` instantiation used by `run_cycle`
(engine.cc:139), where the buffer argument is the member `_buffer` itself;
there the sanitize call at engine.cc:223 lands on the buffer actually
being processed. -/
def processMember (s : Engine) (ev : MidiEvent) : Option Engine :=
  match processCore s s.buffer ev with
  | none => none
  | some (s1, pos, buf5) =>
      some { s1 with buffer :=
               buf5.take pos ++ sanitizeList s.backend (buf5.drop pos) }

/-- `Engine::process_event` (engine.cc:178-195): if `_current_patch` is
null, adopt `_scenes.find(0)->second[0]->patch` — `none` when scene 0 is
absent or has no subscenes (the C++ dereferences without checking) — then
run the pipeline over a fresh local buffer, run the scene-switch machine
over that buffer, and return its contents. -/
def process_event (s : Engine) (ev : MidiEvent) :
    Option (Engine × List MidiEvent) :=
  let adopted : Option Engine :=
    match s.current_patch with
    | some _ => some s
    | none =>
        match amFind s.scenes 0 with
        | none => none
        | some subs =>
            match subs.get? 0 with
            | none => none
            | some sc => some { s with current_patch := some sc.patch }
  match adopted with
  | none => none
  | some s0 =>
      match processLocal s0 [] ev with
      | none => none
      | some (s1, v) => process_scene_switch s1 v

/-- The engine state resulting from `switch_scene(sc, ss)` followed by
`process_scene_switch` over an empty buffer. -/
def afterSwitch (s : Engine) (sc ss : Int) : Option Engine :=
  (process_scene_switch (switch_scene s sc ss) []).map Prod.fst

/-! Concrete fixtures used by witnesses and counterexamples. -/

/-- An identity patch with object identity 1. -/
def P1 : Patch := ⟨1, fun l => l⟩

/-- An identity patch with object identity 2. -/
def P2 : Patch := ⟨2, fun l => l⟩

/-- A subscene with the given main patch and no init/exit patches. -/
def plainScene (p : Patch) : Scene := ⟨p, none, none⟩

/-- A NoteOn on channel 0, note 60, port 0, velocity 100. -/
def on60 : MidiEvent :=
  { type := .noteon, port := 0, channel := 0, data1 := 60, data2 := 100,
    sysex := [] }

/-- The NoteOff matching `on60` (same channel, note, port). -/
def off60 : MidiEvent :=
  { type := .noteoff, port := 0, channel := 0, data1 := 60, data2 := 64,
    sysex := [] }

/-- Engine with scenes 1 and 2 (identity patches), currently on scene 1. -/
def W1s : Engine :=
  { backend := some 1,
    scenes := [(1, [plainScene P1]), (2, [plainScene P2])],
    current_patch := some P1, current_scene := 1, current_subscene := 0,
    new_scene := -1, new_subscene := -1,
    noteon_patches := [], sustain_patches := [],
    ctrl_patch := none, pre_patch := none, post_patch := none,
    buffer := [] }

/-- `W1s` after routing `on60` (which records the pinning entry) and then
performing a complete switch to scene 2. -/
def W1s2 : Engine :=
  match process_scene_switch
      (switch_scene (get_matching_patch W1s on60).2 2 (-1)) [] with
  | some (e, _) => e
  | none => W1s

/-- Engine with the single scene 0 (identity patch), used to exercise
`process_event`. -/
def C2eng : Engine :=
  { backend := some 1,
    scenes := [(0, [plainScene P1])],
    current_patch := some P1, current_scene := 0, current_subscene := 0,
    new_scene := -1, new_subscene := -1,
    noteon_patches := [], sustain_patches := [],
    ctrl_patch := none, pre_patch := none, post_patch := none,
    buffer := [] }

/-- A NoteOn with an out-of-range channel (20): the sanitize predicates
reject it. -/
def C2ev : MidiEvent :=
  { type := .noteon, port := 0, channel := 20, data1 := 60, data2 := 100,
    sysex := [] }

/-- Engine on subscene 1 of scene 7 (which has two subscenes). -/
def C4eng : Engine :=
  { backend := some 1,
    scenes := [(7, [plainScene P1, plainScene P2])],
    current_patch := some P2, current_scene := 7, current_subscene := 1,
    new_scene := -1, new_subscene := -1,
    noteon_patches := [], sustain_patches := [],
    ctrl_patch := none, pre_patch := none, post_patch := none,
    buffer := [] }

/-- `C4eng` with a pending switch to the nonexistent scene 99. -/
def W5eng : Engine := { C4eng with new_scene := 99 }

/-- `C4eng` with a pending subscene of -2: the target scene (the current
scene 7) exists, but the subscene index is negative. -/
def W5neg : Engine := { C4eng with new_subscene := -2 }

/-- The exit patch of scene 1 in the ordering fixture: emits CC 120. -/
def exitP : Patch :=
  ⟨10, fun _ => [{ type := .ctrl, port := 0, channel := 0, data1 := 120,
                   data2 := 0, sysex := [] }]⟩

/-- The init patch of scene 2 in the ordering fixture: emits CC 121. -/
def initP : Patch :=
  ⟨11, fun _ => [{ type := .ctrl, port := 0, channel := 0, data1 := 121,
                   data2 := 0, sysex := [] }]⟩

/-- Engine on scene 1 (whose subscene has exit patch `exitP`), with a
pending switch to scene 2 (whose subscene has init patch `initP`). -/
def W6eng : Engine :=
  { backend := some 1,
    scenes := [(1, [⟨P1, none, some exitP⟩]), (2, [⟨P2, some initP, none⟩])],
    current_patch := some P1, current_scene := 1, current_subscene := 0,
    new_scene := 2, new_subscene := -1,
    noteon_patches := [], sustain_patches := [],
    ctrl_patch := none, pre_patch := none, post_patch := none,
    buffer := [] }

/-- Engine with no scenes at all and a null current patch. -/
def W10eng : Engine :=
  { backend := some 1,
    scenes := [],
    current_patch := none, current_scene := -1, current_subscene := -1,
    new_scene := -1, new_subscene := -1,
    noteon_patches := [], sustain_patches := [],
    ctrl_patch := none, pre_patch := none, post_patch := none,
    buffer := [] }

/-- A PitchBend with value 20000 on port 0, channel 0. -/
def pb20000 : MidiEvent :=
  { type := .pitchbend, port := 0, channel := 0, data1 := 0, data2 := 20000,
    sysex := [] }

/-! Theorems. -/

/-- Claim C3: for every Control event with valid port, channel and param in
0..127, and for every Aftertouch event with valid port and channel,
sanitize_event keeps the event and clamps its control value (`ctrl.value`,
the union word `data2`) to 0..127; the clamped result is a function of the
event's own control value. -/
theorem C3_ctrl_aftertouch_clamp (b : Option Int) (ev : MidiEvent)
    (hport : bad_port b ev = false) (hch : bad_channel ev = false)
    (hkind : (ev.type = .ctrl ∧ 0 ≤ ev.data1 ∧ ev.data1 ≤ 127) ∨
             ev.type = .aftertouch) :
    sanitize_event b ev =
      (true, { ev with data2 := max 0 (min 127 ev.data2) }) := by
  rcases hkind with ⟨ht, h1, h2⟩ | ht
  · simp only [sanitize_event, hport, hch, ht, Bool.false_eq_true,
      if_false]
    rw [if_neg (by omega)]
  · simp only [sanitize_event, hport, hch, ht, Bool.false_eq_true,
      if_false]

/-- Witness for C3: a Control event (param 7, value 200) on port 0,
channel 0 is kept with its value clamped to 127. -/
theorem C3_witness :
    sanitize_event (some 1)
        { type := .ctrl, port := 0, channel := 0, data1 := 7, data2 := 200,
          sysex := [] } =
      (true, { type := .ctrl, port := 0, channel := 0, data1 := 7,
               data2 := 127, sysex := [] }) := by
  have h := C3_ctrl_aftertouch_clamp (some 1)
    { type := .ctrl, port := 0, channel := 0, data1 := 7, data2 := 200,
      sysex := [] } rfl rfl (Or.inl ⟨rfl, by decide, by decide⟩)
  exact h

/-- Claim C8: for every PitchBend event with valid port and channel,
sanitize_event keeps the event and clamps its value to -8192..8191. -/
theorem C8_pitchbend_clamp (b : Option Int) (ev : MidiEvent)
    (hport : bad_port b ev = false) (hch : bad_channel ev = false)
    (ht : ev.type = .pitchbend) :
    sanitize_event b ev =
      (true, { ev with data2 := max (-8192) (min 8191 ev.data2) }) := by
  simp only [sanitize_event, hport, hch, ht, Bool.false_eq_true, if_false]

/-- Witness for C8: a PitchBend with value 20000 comes out with value
8191. -/
theorem C8_witness :
    sanitize_event (some 1) pb20000 =
      (true, { type := .pitchbend, port := 0, channel := 0, data1 := 0,
               data2 := 8191, sysex := [] }) := by
  have h := C8_pitchbend_clamp (some 1) pb20000 rfl rfl rfl
  exact h

/-- Claim C9: the NoteOn negative-velocity drop branch (engine.cc:395-397)
is unreachable because the velocity is clamped to 0..127 first
(engine.cc:393): every NoteOn with valid port, channel and note number
0..127 is kept — with any input velocity, in particular velocity 0 — and
stays a NoteOn with velocity clamped to 0..127. -/
theorem C9_noteon_kept (b : Option Int) (ev : MidiEvent)
    (hport : bad_port b ev = false) (hch : bad_channel ev = false)
    (ht : ev.type = .noteon) (hn1 : 0 ≤ ev.data1) (hn2 : ev.data1 ≤ 127) :
    sanitize_event b ev =
      (true, { ev with data2 := max 0 (min 127 ev.data2) }) := by
  simp only [sanitize_event, hport, hch, ht, Bool.false_eq_true, if_false]
  rw [if_neg (by omega)]
  rw [if_neg (by simp)]

/-- Witness for C9: a NoteOn with velocity 0 (port 0, channel 0, note 60)
is kept as a NoteOn with velocity 0, and one with velocity -7 is kept with
velocity clamped to 0. -/
theorem C9_witness :
    sanitize_event (some 1)
        { type := .noteon, port := 0, channel := 0, data1 := 60, data2 := 0,
          sysex := [] } =
      (true, { type := .noteon, port := 0, channel := 0, data1 := 60,
               data2 := 0, sysex := [] }) ∧
    sanitize_event (some 1)
        { type := .noteon, port := 0, channel := 0, data1 := 60,
          data2 := -7, sysex := [] } =
      (true, { type := .noteon, port := 0, channel := 0, data1 := 60,
               data2 := 0, sysex := [] }) := by
  constructor
  · have h := C9_noteon_kept (some 1)
      { type := .noteon, port := 0, channel := 0, data1 := 60, data2 := 0,
        sysex := [] } rfl rfl rfl (by decide) (by decide)
    exact h
  · have h := C9_noteon_kept (some 1)
      { type := .noteon, port := 0, channel := 0, data1 := 60, data2 := -7,
        sysex := [] } rfl rfl rfl (by decide) (by decide)
    exact h

/-- Helper: the NoteOff branch of get_matching_patch when the tracking
table holds the key: the stored pointer is returned and the entry
erased (engine.cc:236-243). -/
theorem gmp_noteoff_found (s : Engine) (ev : MidiEvent) (q : Option Patch)
    (ht : ev.type = .noteoff)
    (hfind : amFind s.noteon_patches (make_notekey ev) = some q) :
    get_matching_patch s ev =
      (q, { s with noteon_patches :=
              amErase s.noteon_patches (make_notekey ev) }) := by
  simp [get_matching_patch, ht, hfind]

/-- Helper: the scene-switch machine never touches the note-on tracking
table (it only rewrites `current_*` and the pending fields and appends to
the buffer). -/
theorem pss_preserves_noteon (st : Engine) (buf : List MidiEvent)
    (e : Engine) (b : List MidiEvent)
    (h : process_scene_switch st buf = some (e, b)) :
    e.noteon_patches = st.noteon_patches := by
  unfold process_scene_switch at h
  by_cases hidle : st.new_scene = -1 ∧ st.new_subscene = -1
  · rw [if_pos hidle] at h
    simp only [Option.some.injEq, Prod.mk.injEq] at h
    rw [← h.1]
  · rw [if_neg hidle] at h
    rcases hfind : amFind st.scenes (targetScene st) with _ | subs <;>
      simp only [hfind] at h
    · simp only [Option.some.injEq, Prod.mk.injEq] at h
      rw [← h.1]
    · by_cases hlen : targetSubscene st < (subs.length : Int)
      · rw [if_pos hlen] at h
        rcases hat : vecAt subs (targetSubscene st) with _ | scn <;>
          simp only [hat] at h
        · exact absurd h (by simp)
        · rcases hex : exitOutput st with _ | xo <;> simp only [hex] at h
          · exact absurd h (by simp)
          · simp only [Option.some.injEq, Prod.mk.injEq] at h
            rw [← h.1]
      · rw [if_neg hlen] at h
        simp only [Option.some.injEq, Prod.mk.injEq] at h
        rw [← h.1]

/-- Claim C7: for every NoteOff whose key (channel, note, port) has no
entry in the note-on tracking table, get_matching_patch returns
current_patch and leaves the whole engine state — in particular both
tracking tables — unchanged; a NoteOff never inserts an entry. -/
theorem C7_unmatched_noteoff (s : Engine) (ev : MidiEvent)
    (ht : ev.type = .noteoff)
    (hmiss : amFind s.noteon_patches (make_notekey ev) = none) :
    get_matching_patch s ev = (s.current_patch, s) := by
  simp [get_matching_patch, ht, hmiss]

/-- Witness for C7: a NoteOff on an engine with an empty tracking table is
routed through the current patch and changes nothing. -/
theorem C7_witness :
    get_matching_patch W1s off60 = (some P1, W1s) := by
  have h := C7_unmatched_noteoff W1s off60 rfl rfl
  exact h

/-- Claim C1: a NoteOn records the current patch under (channel, note,
port) and is routed through it; `switch_scene` and the scene-switch
machine leave the tracking table alone; and from any state whose tracking
table equals the recorded one — in particular after any number of
intervening scene switches — the matching NoteOff is routed through the
recorded patch and the entry is removed. -/
theorem C1_noteoff_pinning (s : Engine) (p : Patch) (ev ev' : MidiEvent)
    (hcp : s.current_patch = some p)
    (hon : ev.type = .noteon) (hoff : ev'.type = .noteoff)
    (hkey : make_notekey ev' = make_notekey ev)
    (hfresh : amFind s.noteon_patches (make_notekey ev) = none) :
    (get_matching_patch s ev).1 = some p ∧
    (get_matching_patch s ev).2.noteon_patches =
      (make_notekey ev, some p) :: s.noteon_patches ∧
    (∀ st sc ss,
       (switch_scene st sc ss).noteon_patches = st.noteon_patches) ∧
    (∀ st buf e b, process_scene_switch st buf = some (e, b) →
       e.noteon_patches = st.noteon_patches) ∧
    (∀ s2 : Engine,
       s2.noteon_patches = (get_matching_patch s ev).2.noteon_patches →
       (get_matching_patch s2 ev').1 = some p ∧
       amFind (get_matching_patch s2 ev').2.noteon_patches
         (make_notekey ev) = none) := by
  have hrec : (get_matching_patch s ev).2.noteon_patches =
      (make_notekey ev, some p) :: s.noteon_patches := by
    simp [get_matching_patch, hon, amInsert, hfresh, hcp]
  refine ⟨?_, hrec, ?_, ?_, ?_⟩
  · simp [get_matching_patch, hon, hcp]
  · intro st sc ss
    simp only [switch_scene]
    split <;> split <;> rfl
  · exact fun st buf e b h => pss_preserves_noteon st buf e b h
  · intro s2 h2
    rw [hrec] at h2
    have hk2 : amFind s2.noteon_patches (make_notekey ev') =
        some (some p) := by
      rw [h2, hkey]
      simp [amFind]
    rw [gmp_noteoff_found s2 ev' (some p) hoff hk2]
    refine ⟨rfl, ?_⟩
    show amFind (amErase s2.noteon_patches (make_notekey ev'))
      (make_notekey ev) = none
    rw [h2, hkey]
    simp only [amErase, if_pos rfl]
    exact hfresh

/-- Witness for C1: on `W1s` (current patch `P1`), the NoteOn is routed
through `P1`; after a completed switch to scene 2 (current patch becomes
`P2`), the matching NoteOff is still routed through `P1` and its tracking
entry is gone. -/
theorem C1_witness :
    (get_matching_patch W1s on60).1 = some P1 ∧
    W1s2.current_patch = some P2 ∧
    (get_matching_patch W1s2 off60).1 = some P1 ∧
    amFind (get_matching_patch W1s2 off60).2.noteon_patches
      (make_notekey on60) = none := by
  have h := C1_noteoff_pinning W1s P1 on60 off60 rfl rfl rfl rfl rfl
  have h2 := h.2.2.2.2 W1s2 (by rfl)
  exact ⟨h.1, rfl, h2.1, h2.2⟩

/-- Claim C10: when current_patch is null, process_event adopts
`_scenes.find(0)->second[0]->patch` without checking that scene 0 exists;
in the total embedding, every state with a null current patch and no
scene 0 reaches the error branch (`none`). -/
theorem C10_adoption_unchecked (s : Engine) (ev : MidiEvent)
    (hnull : s.current_patch = none)
    (hns : amFind s.scenes 0 = none) :
    process_event s ev = none := by
  simp [process_event, hnull, hns]

/-- Witness for C10: on the engine with no scenes and a null current
patch, process_event errors. -/
theorem C10_witness : process_event W10eng on60 = none := by
  have h := C10_adoption_unchecked W10eng on60 rfl rfl
  exact h

/-- Helper: the valid-target path of process_scene_switch as one
equation. -/
theorem pss_valid_eq (s : Engine) (buf : List MidiEvent)
    (subs : List Scene) (scene : Scene) (xo : List MidiEvent)
    (hpend : ¬(s.new_scene = -1 ∧ s.new_subscene = -1))
    (hfind : amFind s.scenes (targetScene s) = some subs)
    (hlen : targetSubscene s < (subs.length : Int))
    (hat : vecAt subs (targetSubscene s) = some scene)
    (hex : exitOutput s = some xo) :
    process_scene_switch s buf =
      some ({ s with
                current_patch := some scene.patch,
                current_scene := targetScene s,
                current_subscene := targetSubscene s,
                new_scene := -1, new_subscene := -1 },
            buf ++ xo ++ initOutput s scene) := by
  unfold process_scene_switch
  rw [if_neg hpend]
  simp only [hfind, if_pos hlen, hat, hex]

/-- Helper: the exit step is defined (returns `some`) whenever either no
scene is current or the current (scene, subscene) pair is present in the
scene table. -/
theorem exitOutput_isSome (s : Engine)
    (hprev : s.current_scene = -1 ∨
      ((amFind s.scenes s.current_scene).bind
        fun ps => vecAt ps s.current_subscene).isSome = true) :
    ∃ xo, exitOutput s = some xo := by
  by_cases hcs : s.current_scene = -1
  · exact ⟨[], by simp [exitOutput, hcs]⟩
  · rcases hprev with hneg | hsome
    · exact absurd hneg hcs
    · rw [Option.isSome_iff_exists] at hsome
      obtain ⟨prev, hb⟩ := hsome
      rw [Option.bind_eq_some] at hb
      obtain ⟨ps, hps, hat'⟩ := hb
      rcases hxp : prev.exit_patch with _ | xp
      · exact ⟨[], by simp [exitOutput, hcs, hps, hat', hxp]⟩
      · exact ⟨sanitizeList s.backend (applyOpt s.post_patch
            (xp.run [dummyEv])),
          by simp [exitOutput, hcs, hps, hat', hxp]⟩

/-- Counterexample for claim C4: on the engine currently at subscene 1 of
scene 7, requesting `switch_scene(7, -1)` and applying the switch sets
current_subscene to 0, not the claimed unchanged value 1. -/
theorem C4_counterexample :
    C4eng.current_subscene = 1 ∧
    (afterSwitch C4eng 7 (-1)).map Engine.current_subscene = some 0 := by
  exact ⟨rfl, rfl⟩

/-- Claim C4 as amended: `-1` on the scene axis keeps current_scene
unchanged at switch time (the target scene falls back to current_scene),
but `-1` on the subscene axis does not keep current_subscene — the
subscene defaults to 0, so it is preserved only when it was already 0. -/
theorem C4_amended_axes (s : Engine) (sc ss : Int)
    (subsA subsB : List Scene)
    (hns : s.new_scene = -1) (hnss : s.new_subscene = -1)
    (hprev : s.current_scene = -1 ∨
      ((amFind s.scenes s.current_scene).bind
        fun ps => vecAt ps s.current_subscene).isSome = true) :
    (ss ≠ -1 → 0 ≤ ss →
      amFind s.scenes s.current_scene = some subsA →
      ss < (subsA.length : Int) →
      (afterSwitch s (-1) ss).map Engine.current_scene =
        some s.current_scene) ∧
    (sc ≠ -1 →
      amFind s.scenes sc = some subsB →
      0 < subsB.length →
      (afterSwitch s sc (-1)).map Engine.current_subscene = some 0) := by
  obtain ⟨xo, hex⟩ := exitOutput_isSome s hprev
  constructor
  · intro hss h0 hfindA hlenA
    have hsw : switch_scene s (-1) ss = { s with new_subscene := ss } := by
      simp [switch_scene, hss]
    have hpend' : ¬(({ s with new_subscene := ss } : Engine).new_scene = -1 ∧
        ({ s with new_subscene := ss } : Engine).new_subscene = -1) :=
      fun hc => hss hc.2
    have htS : targetScene { s with new_subscene := ss } = s.current_scene := by
      simp [targetScene, hns]
    have htSS : targetSubscene { s with new_subscene := ss } = ss := by
      simp [targetSubscene, hss]
    have hnat : ss.toNat < subsA.length := by omega
    obtain ⟨scn, hscn⟩ : ∃ scn, vecAt subsA ss = some scn := by
      unfold vecAt
      rw [if_neg (by omega), List.get?_eq_get hnat]
      exact ⟨_, rfl⟩
    have hfindA' : amFind ({ s with new_subscene := ss } : Engine).scenes
        (targetScene { s with new_subscene := ss }) = some subsA := by
      rw [htS]; exact hfindA
    have hlen' : targetSubscene { s with new_subscene := ss } <
        ((subsA.length : Nat) : Int) := by
      rw [htSS]; exact hlenA
    have hat' : vecAt subsA
        (targetSubscene { s with new_subscene := ss }) = some scn := by
      rw [htSS]; exact hscn
    have hex' : exitOutput { s with new_subscene := ss } = some xo := hex
    unfold afterSwitch
    rw [hsw, pss_valid_eq _ [] subsA scn xo hpend' hfindA' hlen' hat' hex']
    simp [htS]
  · intro hsc hfindB hlenB
    have hsw : switch_scene s sc (-1) = { s with new_scene := sc } := by
      simp [switch_scene, hsc]
    have hpend' : ¬(({ s with new_scene := sc } : Engine).new_scene = -1 ∧
        ({ s with new_scene := sc } : Engine).new_subscene = -1) :=
      fun hc => hsc hc.1
    have htS : targetScene { s with new_scene := sc } = sc := by
      simp [targetScene, hsc]
    have htSS : targetSubscene { s with new_scene := sc } = 0 := by
      simp [targetSubscene, hnss]
    have hnat : (0 : Int).toNat < subsB.length := by omega
    obtain ⟨scn, hscn⟩ : ∃ scn, vecAt subsB 0 = some scn := by
      unfold vecAt
      rw [if_neg (by omega), List.get?_eq_get hnat]
      exact ⟨_, rfl⟩
    have hfindB' : amFind ({ s with new_scene := sc } : Engine).scenes
        (targetScene { s with new_scene := sc }) = some subsB := by
      rw [htS]; exact hfindB
    have hlen' : targetSubscene { s with new_scene := sc } <
        ((subsB.length : Nat) : Int) := by
      rw [htSS]; omega
    have hat' : vecAt subsB
        (targetSubscene { s with new_scene := sc }) = some scn := by
      rw [htSS]; exact hscn
    have hex' : exitOutput { s with new_scene := sc } = some xo := hex
    unfold afterSwitch
    rw [hsw, pss_valid_eq _ [] subsB scn xo hpend' hfindB' hlen' hat' hex']
    simp [htSS]

/-- Witness for the amended C4: on `C4eng` (current scene 7, subscene 1),
`switch_scene(-1, 1)` keeps current_scene = 7, while `switch_scene(7, -1)`
resets current_subscene to 0. -/
theorem C4_amended_witness :
    (afterSwitch C4eng (-1) 1).map Engine.current_scene = some 7 ∧
    (afterSwitch C4eng 7 (-1)).map Engine.current_subscene = some 0 := by
  have h := C4_amended_axes C4eng 7 1
    [plainScene P1, plainScene P2] [plainScene P1, plainScene P2]
    rfl rfl (Or.inr rfl)
  exact ⟨h.1 (by decide) (by decide) rfl (by decide),
         h.2 (by decide) rfl (by decide)⟩

/-- Counterexample for claim C5: with scene 7 present (two subscenes) and
pending subscene -2, the target subscene index is out of bounds, yet
process_scene_switch is not the claimed silent no-op with the pending
fields cleared: the `size() > subscene_num` check (engine.cc:306) passes
for every negative index, so `second[subscene_num]` (engine.cc:309) is an
out-of-bounds vector access — undefined behaviour, `none` in the
embedding. -/
theorem C5_counterexample :
    (amFind W5neg.scenes (targetScene W5neg)).isSome = true ∧
    targetSubscene W5neg = -2 ∧
    process_scene_switch W5neg [] = none ∧
    process_scene_switch W5neg [] ≠
      some ({ W5neg with new_scene := -1, new_subscene := -1 }, []) := by
  exact ⟨rfl, rfl, rfl, fun h => Option.noConfusion h⟩

/-- Claim C5 as amended: a pending switch whose target scene id is absent,
or whose target subscene index is at least the scene's subscene count,
only clears the pending fields — current_scene, current_subscene,
current_patch and the buffer are left unchanged; but a pending switch
whose target subscene index is negative while the target scene exists
passes the size check and reaches the out-of-bounds vector access
(undefined behaviour) instead of the no-op. -/
theorem C5_amended_invalid_target (s : Engine) (buf : List MidiEvent)
    (hpend : ¬(s.new_scene = -1 ∧ s.new_subscene = -1)) :
    (amFind s.scenes (targetScene s) = none →
      process_scene_switch s buf =
        some ({ s with new_scene := -1, new_subscene := -1 }, buf)) ∧
    (∀ subs, amFind s.scenes (targetScene s) = some subs →
      (subs.length : Int) ≤ targetSubscene s →
      process_scene_switch s buf =
        some ({ s with new_scene := -1, new_subscene := -1 }, buf)) ∧
    (∀ subs, amFind s.scenes (targetScene s) = some subs →
      targetSubscene s < 0 →
      process_scene_switch s buf = none) := by
  refine ⟨?_, ?_, ?_⟩
  · intro hnone
    unfold process_scene_switch
    rw [if_neg hpend]
    simp only [hnone]
  · intro subs hfind hge
    unfold process_scene_switch
    rw [if_neg hpend]
    simp only [hfind, if_neg (not_lt.mpr hge)]
  · intro subs hfind hneg
    unfold process_scene_switch
    rw [if_neg hpend]
    have hlt : targetSubscene s < (subs.length : Int) := by omega
    have hnone : vecAt subs (targetSubscene s) = none := by
      unfold vecAt
      rw [if_pos hneg]
    simp only [hfind, if_pos hlt, hnone]

/-- Witness for the amended C5: a pending switch to the nonexistent scene
99 only clears the pending fields, a pending subscene of 5 on the
two-subscene scene 7 only clears the pending fields, and a pending
subscene of -2 on scene 7 reaches the undefined access. -/
theorem C5_amended_witness :
    process_scene_switch W5eng [] =
      some ({ W5eng with new_scene := -1, new_subscene := -1 }, []) ∧
    process_scene_switch { C4eng with new_subscene := 5 } [] =
      some ({ C4eng with new_subscene := -1 }, []) ∧
    process_scene_switch W5neg [] = none := by
  have h1 := C5_amended_invalid_target W5eng [] (by decide)
  have h2 := C5_amended_invalid_target { C4eng with new_subscene := 5 } []
    (by decide)
  have h3 := C5_amended_invalid_target W5neg [] (by decide)
  exact ⟨h1.1 rfl,
         h2.2.1 [plainScene P1, plainScene P2] rfl (by decide),
         h3.2.2 [plainScene P1, plainScene P2] rfl (by decide)⟩

/-- Claim C6: on a valid switch where the old subscene has an exit patch
and the new one an init patch, the buffer gains the exit pipeline's output
strictly before the init pipeline's output; each dummy event passes
through the (optional) post patch and the sanitize patch, and the result
does not depend on the pre or ctrl patches. -/
theorem C6_exit_before_init (s : Engine) (buf : List MidiEvent)
    (subs psubs : List Scene) (scene prev : Scene) (xp ip : Patch)
    (hpend : ¬(s.new_scene = -1 ∧ s.new_subscene = -1))
    (hfind : amFind s.scenes (targetScene s) = some subs)
    (hlen : targetSubscene s < (subs.length : Int))
    (hat : vecAt subs (targetSubscene s) = some scene)
    (hcs : s.current_scene ≠ -1)
    (hpfind : amFind s.scenes s.current_scene = some psubs)
    (hpat : vecAt psubs s.current_subscene = some prev)
    (hxp : prev.exit_patch = some xp)
    (hip : scene.init_patch = some ip) :
    process_scene_switch s buf =
      some ({ s with
                current_patch := some scene.patch,
                current_scene := targetScene s,
                current_subscene := targetSubscene s,
                new_scene := -1, new_subscene := -1 },
            buf ++ sanitizeList s.backend
                (applyOpt s.post_patch (xp.run [dummyEv]))
              ++ sanitizeList s.backend
                (applyOpt s.post_patch (ip.run [dummyEv]))) ∧
    (∀ q q' : Option Patch,
      (process_scene_switch
          { s with pre_patch := q, ctrl_patch := q' } buf).map Prod.snd =
        some (buf ++ sanitizeList s.backend
                (applyOpt s.post_patch (xp.run [dummyEv]))
              ++ sanitizeList s.backend
                (applyOpt s.post_patch (ip.run [dummyEv])))) := by
  have hex : exitOutput s = some (sanitizeList s.backend
      (applyOpt s.post_patch (xp.run [dummyEv]))) := by
    simp [exitOutput, hcs, hpfind, hpat, hxp]
  have hini : initOutput s scene =
      sanitizeList s.backend (applyOpt s.post_patch (ip.run [dummyEv])) := by
    simp [initOutput, hip]
  constructor
  · rw [pss_valid_eq s buf subs scene _ hpend hfind hlen hat hex, hini]
  · intro q q'
    have hini' : initOutput { s with pre_patch := q, ctrl_patch := q' }
        scene =
        sanitizeList s.backend (applyOpt s.post_patch (ip.run [dummyEv])) :=
      hini
    rw [pss_valid_eq { s with pre_patch := q, ctrl_patch := q' } buf subs
      scene _ hpend hfind hlen hat hex, hini']
    simp

/-- Witness for C6: switching `W6eng` from scene 1 (exit patch emitting
CC 120) to scene 2 (init patch emitting CC 121) appends exactly
[CC 120, CC 121], in that order. -/
theorem C6_witness :
    process_scene_switch W6eng [] =
      some ({ W6eng with
                current_patch := some P2,
                current_scene := 2, current_subscene := 0,
                new_scene := -1, new_subscene := -1 },
            [{ type := .ctrl, port := 0, channel := 0, data1 := 120,
               data2 := 0, sysex := [] },
             { type := .ctrl, port := 0, channel := 0, data1 := 121,
               data2 := 0, sysex := [] }]) := by
  have h := C6_exit_before_init W6eng []
    [⟨P2, some initP, none⟩] [⟨P1, none, some exitP⟩]
    ⟨P2, some initP, none⟩ ⟨P1, none, some exitP⟩ exitP initP
    (by decide) rfl (by decide) rfl (by decide) rfl rfl rfl rfl
  exact h.1

/-- Claim C2 (refuted by the code): on the engine with a single identity
scene and no ctrl/pre/post patches, process_event returns a NoteOn with
channel 20 even though the sanitize predicates reject it — engine.cc:223
applies the sanitize patch to the member `_buffer` instead of the local
buffer whose contents process_event returns. -/
theorem C2_unsanitized_output :
    (process_event C2eng C2ev).map Prod.snd = some [C2ev] ∧
    (sanitize_event C2eng.backend C2ev).1 = false := by
  exact ⟨rfl, rfl⟩

end Mididings
